import Mathlib

/-!
Verification of the demox-site/mcp-server credential lifecycle and
call-dispatch layer against its natural-language specification.

The embedding models, from the TypeScript source:
- `OAuthManager` (token data, expiry margin, `ensureAuthenticated`,
  `loadToken`, the local-callback request handler inside
  `startLocalServer`, `generateRandomState`);
- the `CallToolRequestSchema` handler of `DemoxMCPServer.setupHandlers`
  (auth-marker detection and the one-shot re-login retry);
- `DemoxClient` (`deployWebsite` input resolution with the `isBase64`
  sniffing via `atob`/`btoa`, and `listWebsites`).

Machine time is modelled as `Int` epoch milliseconds.  External effects
(file system, JSON parsing, the network, randomness) appear as explicit
parameters or small state types, so every definition is executable.
-/

namespace DemoxMCP

/-- The persisted credential record (interface `TokenData`). -/
structure TokenData where
  accessToken : String
  refreshToken : String
  expiresAt : Int
  scopes : List String
  userId : String
  clientId : String
deriving DecidableEq, Repr

/-- `OAuthManager.isTokenExpired`: expired when `now >= expiresAt - 5 * 60 * 1000`. -/
def isTokenExpired (now : Int) (td : TokenData) : Bool :=
  decide (now ≥ td.expiresAt - 5 * 60 * 1000)

/-- The "renew soon" warning emitted when at most 3 days remain
(`daysLeft = Math.floor((expiresAt - now) / 86400000)`). -/
def renewWarning (now : Int) (td : TokenData) : Bool :=
  decide (Int.fdiv (td.expiresAt - now) (1000 * 60 * 60 * 24) ≤ 3)

/-- Outcome of `ensureAuthenticated`: either the cached access token is
returned (with the possible renew warning), or the login flow
(`authorize()`) is triggered. -/
inductive EnsureOutcome where
  | cached (token : String) (warnedRenew : Bool)
  | login
deriving DecidableEq, Repr

/-- `OAuthManager.ensureAuthenticated`, as a function of the loaded
credential (`loadToken` result) and the current time. -/
def ensureAuthenticated (stored : Option TokenData) (now : Int) : EnsureOutcome :=
  match stored with
  | some td =>
    if !isTokenExpired now td then
      .cached td.accessToken (renewWarning now td)
    else
      .login
  | none => .login

/-- Local credential file state, as `loadToken` can observe it:
absent, present but unreadable (`fs.readFile` throws), or readable with
some text content. -/
inductive FileState where
  | missing
  | unreadable
  | content (text : String)
deriving DecidableEq

/-- `OAuthManager.loadToken`.  `parse` stands for `JSON.parse` followed by
the implicit cast to `TokenData` (`none` = parse throws).  The source wraps
everything in `try/catch` and returns `null` from the `catch`, so a read
failure and a parse failure both come back as `none`. -/
def loadToken (parse : String → Option TokenData) (fs : FileState) : Option TokenData :=
  match fs with
  | .missing => none
  | .unreadable => none
  | .content text =>
    match parse text with
    | some td => some td
    | none => none

/-- Outcome taxonomy of the spec's Credential Store `load()` contract. -/
inductive LoadOutcome where
  | record (td : TokenData)
  | absent
  | ioError
  | corruptData
deriving DecidableEq

/-- Reading of the code's `loadToken` result at the spec's granularity:
the code reports `null` and the caller treats it as "absent". -/
def loadOutcomeOfCode : Option TokenData → LoadOutcome
  | some td => .record td
  | none => .absent

/-- Follows the spec's words for `load()` (section 4.1), as the reference
behaviour the code is compared against: record on a valid parse, absent on
a missing file, `IOError` on an unreadable file, `CorruptDataError` on an
unparseable file. -/
def loadSpec (parse : String → Option TokenData) (fs : FileState) : LoadOutcome :=
  match fs with
  | .missing => .absent
  | .unreadable => .ioError
  | .content text =>
    match parse text with
    | some td => .record td
    | none => .corruptData

/-- A callback request to `http://localhost:39897/callback`, read through
`url.searchParams.get`: each parameter is `none` when absent and
`some s` when present with value `s` (possibly empty). -/
structure CallbackRequest where
  access_token : Option String
  refresh_token : Option String
  user_id : Option String
  state : Option String
  error : Option String
deriving DecidableEq

/-- JavaScript truthiness of a `string | null` value, as used by the
handler's `if (error)`, `if (accessToken && state)`, `refreshToken ||
accessToken` and `userId || ""`: `null` and the empty string are falsy. -/
def truthy : Option String → Bool
  | none => false
  | some s => !(s == "")

/-- How one handled callback request settles the `startLocalServer`
promise. -/
inductive CallbackOutcome where
  | resolved (td : TokenData)
  | rejected (message : String)
deriving DecidableEq

/-- What the request handler inside `startLocalServer` does for one
request: the HTTP response it writes, whether it called `server.close()`,
and how it settles the promise. -/
structure HandlerResult where
  status : Nat
  body : String
  serverClosed : Bool
  outcome : CallbackOutcome
deriving DecidableEq

/-- The failure page rendered when the callback carries an `error`
parameter; the reason is interpolated into the page. -/
def errorPageHtml (reason : String) : String :=
  "<!DOCTYPE html>\n<html>\n<head>\n<title>登录取消</title>\n<meta charset=\"utf-8\">\n<style>\nbody \x7b font-family: sans-serif; text-align: center; padding: 50px; \x7d\n.error \x7b color: #ef4444; font-size: 24px; \x7d\n</style>\n</head>\n<body>\n<div class=\"error\">❌ 登录取消</div>\n<p>" ++ reason ++ "</p>\n<p>您可以关闭此页面并返回编辑器。</p>\n</body>\n</html>"

/-- The success page rendered on a valid callback; a fixed constant. -/
def successPageHtml : String :=
  "<!DOCTYPE html>\n<html>\n<head>\n<title>登录成功</title>\n<meta charset=\"utf-8\">\n<style>\nbody \x7b font-family: sans-serif; text-align: center; padding: 50px; \x7d\n.success \x7b color: #10b981; font-size: 24px; \x7d\n</style>\n</head>\n<body>\n<div class=\"success\">✅ 登录成功！</div>\n<p>您可以关闭此页面并返回编辑器了。</p>\n<p style=\"color: #666; font-size: 14px;\">凭证已保存在本地 (~/.demox/token.json)<br>有效期：30 天</p>\n</body>\n</html>"

/-- The fixed full scope set put into every synthesized record. -/
def scopesList : List String :=
  ["website:deploy", "website:list", "website:delete", "website:update"]

/-- The request handler of `OAuthManager.startLocalServer` (the
`http.createServer` callback), for expected state `expectedState`,
configured client id `clientId`, at time `now` (`Date.now()`). -/
def handleCallback (clientId : String) (expectedState : String) (now : Int)
    (req : CallbackRequest) : HandlerResult :=
  if truthy req.error then
    { status := 200
      body := errorPageHtml (req.error.getD "")
      serverClosed := true
      outcome := .rejected ("OAuth 授权失败: " ++ req.error.getD "") }
  else if truthy req.access_token && truthy req.state then
    if req.state ≠ some expectedState then
      { status := 400
        body := "State 不匹配"
        serverClosed := true
        outcome := .rejected "OAuth state 不匹配，可能存在安全风险" }
    else
      { status := 200
        body := successPageHtml
        serverClosed := true
        outcome := .resolved {
          accessToken := req.access_token.getD ""
          refreshToken :=
            if truthy req.refresh_token then req.refresh_token.getD ""
            else req.access_token.getD ""
          expiresAt := now + 30 * 24 * 60 * 60 * 1000
          scopes := scopesList
          userId := if truthy req.user_id then req.user_id.getD "" else ""
          clientId := clientId } }
  else
    { status := 400
      body := "缺少必要的参数"
      serverClosed := true
      outcome := .rejected "缺少必要的 OAuth 参数" }

/-- `authorize()` persists (`saveToken`) exactly the record that resolved
the `startLocalServer` promise; a rejection persists nothing. -/
def persistedAfter (r : HandlerResult) : Option TokenData :=
  match r.outcome with
  | .resolved td => some td
  | .rejected _ => none

/-- The two ways one `startLocalServer` run can end: a callback request
arrives, or the `setTimeout` registered in `startLocalServer` fires. -/
inductive ServerEvent where
  | request (req : CallbackRequest)
  | timerFired

/-- Delay of the `setTimeout` inside `startLocalServer` (milliseconds). -/
def serverTimeoutMs : Nat := 300000

/-- Delay passed to `createTimeout` in the `Promise.race` of
`authorize()` (milliseconds). -/
def raceTimeoutMs : Nat := 300000

/-- Rejection message of `createTimeout`. -/
def createTimeoutMessage : String := "操作超时"

/-- Exit summary of one `startLocalServer` run: whether `server.close()`
was called on that path, and how the promise settled. -/
structure ServerExit where
  serverClosed : Bool
  outcome : CallbackOutcome
deriving DecidableEq

/-- How `startLocalServer` exits on each event: a request goes through the
request handler; the timer handler calls `server.close()` and rejects with
the login-timeout error. -/
def serverExit (clientId expectedState : String) (now : Int) :
    ServerEvent → ServerExit
  | .request req =>
    { serverClosed := (handleCallback clientId expectedState now req).serverClosed
      outcome := (handleCallback clientId expectedState now req).outcome }
  | .timerFired =>
    { serverClosed := true
      outcome := .rejected "登录超时（5 分钟）" }

/-- Node's `setTimeout(f, serverTimeoutMs)` never fires before its delay:
the fire instant of a timer registered at `registeredAt` is at least
`registeredAt + serverTimeoutMs`. -/
abbrev timerFiresAt (registeredAt fireTime : Nat) : Prop :=
  registeredAt + serverTimeoutMs ≤ fireTime

/-- JavaScript `String.prototype.includes`: substring containment. -/
def containsStr (s pat : String) : Bool :=
  decide (pat.toList <:+: s.toList)

/-- The auth-marker heuristic of the `CallToolRequestSchema` handler
(`src/cli.ts`): the caught error's message contains one of the markers. -/
def isAuthErrorMessage (msg : String) : Bool :=
  containsStr msg "Token" || containsStr msg "认证" || containsStr msg "登录" ||
  containsStr msg "UNAUTHORIZED" || containsStr msg "401"

/-- A tool-call response: either the routed handler's value, or a
`content` block flagged `isError: true` carrying `text`. -/
inductive ToolOutcome (α : Type) where
  | success (value : α)
  | errorResult (text : String)
deriving DecidableEq

/-- Fixed prefix of the auto-login-failure report text. -/
def autoLoginFailedPre : String :=
  "❌ **自动登录失败**\n\n错误信息: "

/-- Fixed suffix of the auto-login-failure report text, with the manual
login instruction. -/
def autoLoginFailedSuf : String :=
  "\n\n请尝试手动运行以下命令完成登录：\n\n```bash\ndemox-mcp login\n```\n\n登录完成后，请重新调用此工具。"

/-- Text of the `isError` response built in the `catch (loginError)`
block: the caught message is interpolated into the report. -/
def autoLoginFailedText (msg : String) : String :=
  autoLoginFailedPre ++ msg ++ autoLoginFailedSuf

/-- Text of the final generic `isError` response (`❌ 错误: ...`). -/
def plainErrorText (msg : String) : String :=
  "❌ 错误: " ++ msg

/-- The `catch (error)` block of the tool-call handler.  `calls` counts
`authorize()` invocations made so far on this tool call.  On an
auth-marker message it runs `authorize()` (outcome `retryLoginFlow`) and,
on success, re-runs the routed handler once (outcome `opRetry`); both the
re-login failure and the retry failure are caught by `catch (loginError)`
and reported through `autoLoginFailedText`.  A non-auth message becomes
the plain error response. -/
def catchBranch {α : Type} (calls : Nat) (msg : String)
    (retryLoginFlow : Except String String) (opRetry : Except String α) :
    ToolOutcome α × Nat :=
  if isAuthErrorMessage msg then
    match retryLoginFlow with
    | .error loginErr => (.errorResult (autoLoginFailedText loginErr), calls + 1)
    | .ok _ =>
      match opRetry with
      | .ok v => (.success v, calls + 1)
      | .error retryErr => (.errorResult (autoLoginFailedText retryErr), calls + 1)
  else
    (.errorResult (plainErrorText msg), calls)

/-- The `CallToolRequestSchema` handler of `DemoxMCPServer.setupHandlers`.
`stored`/`now` drive `ensureAuthenticated`; `loginFlow` is the outcome of
the `authorize()` call made inside `ensureAuthenticated` when no usable
credential exists; `opFirst` is the outcome of the first invocation of the
routed tool handler; `retryLoginFlow` and `opRetry` are the outcomes of
the `authorize()` call and the single re-invocation made in the catch
path.  The returned `Nat` counts `authorize()` invocations. -/
def callToolHandler {α : Type} (stored : Option TokenData) (now : Int)
    (loginFlow : Except String String) (opFirst : Except String α)
    (retryLoginFlow : Except String String) (opRetry : Except String α) :
    ToolOutcome α × Nat :=
  match ensureAuthenticated stored now with
  | .cached _ _ =>
    match opFirst with
    | .ok v => (.success v, 0)
    | .error msg => catchBranch 0 msg retryLoginFlow opRetry
  | .login =>
    match loginFlow with
    | .ok _ =>
      match opFirst with
      | .ok v => (.success v, 1)
      | .error msg => catchBranch 1 msg retryLoginFlow opRetry
    | .error msg => catchBranch 1 msg retryLoginFlow opRetry

/-- The standard base64 alphabet, in index order. -/
def b64Alphabet : List Char :=
  "ABCDEFGHIJKLMNOPQRSTUVWXYZabcdefghijklmnopqrstuvwxyz0123456789+/".toList

/-- Index of a character in the base64 alphabet. -/
def b64IndexAux (c : Char) : List Char → Nat → Option Nat
  | [], _ => none
  | d :: rest, i => if c = d then some i else b64IndexAux c rest (i + 1)

/-- Index of a character in the base64 alphabet (`none` when invalid). -/
def b64Index (c : Char) : Option Nat :=
  b64IndexAux c b64Alphabet 0

/-- Character for a sextet value. -/
def b64Char (n : Nat) : Char :=
  b64Alphabet.getD n '?'

/-- ASCII whitespace, removed by forgiving-base64 decoding. -/
def isAsciiWs (c : Char) : Bool :=
  c = ' ' || c = '\t' || c = '\n' || c = '\r' || c = '\x0c'

/-- Remove up to two trailing padding characters. -/
def removeUpToTwoEq (l : List Char) : List Char :=
  match l.reverse with
  | '=' :: '=' :: rest => rest.reverse
  | '=' :: rest => rest.reverse
  | _ => l

/-- Reassemble decoded sextets into bytes (leftover bits of a final chunk
of two or three characters are discarded, as in forgiving decoding). -/
def sextetsToBytes : List Nat → List Nat
  | a :: b :: c :: d :: rest =>
    (a * 4 + b / 16) :: ((b % 16) * 16 + c / 4) :: ((c % 4) * 64 + d) ::
      sextetsToBytes rest
  | [a, b, c] => [a * 4 + b / 16, (b % 16) * 16 + c / 4]
  | [a, b] => [a * 4 + b / 16]
  | [_] => []
  | [] => []

/-- The WHATWG forgiving-base64 decoder behind `atob`: strip ASCII
whitespace, strip up to two trailing `=` when the length is a multiple of
four, fail when the remaining length is `1 mod 4` or a character is
outside the alphabet, else decode. -/
def atob (s : String) : Option (List Nat) :=
  let cleaned := s.toList.filter (fun c => !isAsciiWs c)
  let trimmed := if cleaned.length % 4 == 0 then removeUpToTwoEq cleaned else cleaned
  if trimmed.length % 4 == 1 then none
  else
    match trimmed.mapM b64Index with
    | none => none
    | some sextets => some (sextetsToBytes sextets)

/-- Base64-encode a byte list with padding, as `btoa` does. -/
def btoaEncode : List Nat → List Char
  | b1 :: b2 :: b3 :: rest =>
    b64Char (b1 / 4) :: b64Char ((b1 % 4) * 16 + b2 / 16) ::
      b64Char ((b2 % 16) * 4 + b3 / 64) :: b64Char (b3 % 64) :: btoaEncode rest
  | [b1, b2] =>
    [b64Char (b1 / 4), b64Char ((b1 % 4) * 16 + b2 / 16),
      b64Char ((b2 % 16) * 4), '=']
  | [b1] =>
    [b64Char (b1 / 4), b64Char ((b1 % 4) * 16), '=', '=']
  | [] => []

/-- `btoa` on a byte list. -/
def btoa (bytes : List Nat) : String :=
  String.mk (btoaEncode bytes)

/-- JavaScript `startsWith`. -/
def strStartsWith (s pre : String) : Bool :=
  pre.toList.isPrefixOf s.toList

/-- JavaScript `endsWith`. -/
def strEndsWith (s suf : String) : Bool :=
  suf.toList.isSuffixOf s.toList

/-- JavaScript `toLowerCase` (ASCII range, which covers the `.zip`
suffix comparisons). -/
def strToLower (s : String) : String :=
  String.mk (s.toList.map Char.toLower)

/-- JavaScript `includes` with a single-character needle. -/
def strContainsChar (s : String) (c : Char) : Bool :=
  s.toList.contains c

/-- `DemoxClient.isBase64`: `btoa(atob(str)) === str`, falling back on a
decode failure to "no slash, no backslash, longer than 100". -/
def isBase64 (str : String) : Bool :=
  match atob str with
  | some bytes => btoa bytes == str
  | none =>
    !(strContainsChar str '/') && !(strContainsChar str '\\')
      && decide (str.length > 100)

/-- `fs.statSync` result as `getPathStat` reads it. -/
structure PathStat where
  isFile : Bool
  isDirectory : Bool
  size : Nat
deriving DecidableEq

/-- How `deployWebsite` resolves its `zipFile` argument before any
network call. -/
inductive ResolveResult where
  | download (url : String)
  | tempZipFromDir (dir : String)
  | useAsIs (path : String)
  | error (msg : String)
deriving DecidableEq

/-- Input resolution phase of `DemoxClient.deployWebsite` (the part before
the size check and upload).  `fileSystem` maps a path to its stat, `none`
when `fs.existsSync` is false. -/
def deployWebsiteResolve (fileSystem : String → Option PathStat)
    (zipFile : String) : ResolveResult :=
  if strStartsWith zipFile "http://" || strStartsWith zipFile "https://" then
    if !(strEndsWith (strToLower zipFile) ".zip") then
      .error "只支持 ZIP 文件，URL 必须以 .zip 结尾"
    else
      .download zipFile
  else if isBase64 zipFile && !(strStartsWith zipFile "/")
      && !(strStartsWith zipFile ".") then
    .error "不支持直接传入 Base64 内容，请提供 ZIP 文件路径或 URL"
  else
    match fileSystem zipFile with
    | none => .error ("路径不存在: " ++ zipFile)
    | some st =>
      if st.isDirectory then
        .tempZipFromDir zipFile
      else if strEndsWith (strToLower zipFile) ".zip" then
        .useAsIs zipFile
      else
        .error "不支持的文件类型，仅支持 .zip 文件或目录"

/-- `2 ^ 53`, the denominator of the dyadic fractions `Math.random()`
yields. -/
def two53 : Nat := 9007199254740992

/-- Base-36 digit character for `n % 36` (`0`–`9` then `a`–`z`), as
`Number.prototype.toString(36)` uses. -/
def b36Digit (n : Nat) : Char :=
  if n % 36 < 10 then Char.ofNat (48 + n % 36) else Char.ofNat (87 + n % 36)

/-- Fractional base-36 digits of `k / 2 ^ 53`, to exhaustion (fuelled; 27
digits always suffice since every such fraction terminates in base 36). -/
def base36FracDigits : Nat → Nat → List Char
  | _, 0 => []
  | k, fuel + 1 =>
    if k == 0 then []
    else b36Digit (k * 36 / two53) :: base36FracDigits (k * 36 % two53) fuel

/-- `(k / 2 ^ 53).toString(36)` for `0 ≤ k < 2 ^ 53`: `"0"` for zero, else
`"0."` followed by the fractional digits. -/
def jsNumberToString36 (k : Nat) : String :=
  if k == 0 then "0" else String.mk ('0' :: '.' :: base36FracDigits k 60)

/-- JavaScript `substring(a, b)` (indices clamped to the string length). -/
def jsSubstring (s : String) (a b : Nat) : String :=
  String.mk ((s.toList.drop a).take (b - a))

/-- `OAuthManager.generateRandomState`:
`Math.random().toString(36).substring(2, 15)` twice, concatenated; the two
random draws are `k1 / 2 ^ 53` and `k2 / 2 ^ 53`. -/
def generateRandomState (k1 k2 : Nat) : String :=
  jsSubstring (jsNumberToString36 k1) 2 15 ++ jsSubstring (jsNumberToString36 k2) 2 15

/-- Lowercase base-36 alphanumeric character. -/
def isBase36Alnum (c : Char) : Bool :=
  c.isDigit || c.isLower

/-- A website entry as the backend returns it. -/
structure Website where
  websiteId : String
  fileName : String
  url : String
  path : String
  createdAt : String
  updatedAt : String
deriving DecidableEq

/-- The backend's response envelope to the `list` action, after
`callFunction` returned it without error: `{ files: [...], count: n }`,
where `files` may be missing. -/
structure ListResponse where
  files : Option (List Website)
  count : Option Nat
deriving DecidableEq

/-- `DemoxClient.listWebsites` on a returned envelope:
`result.files || []`. -/
def listWebsites (resp : ListResponse) : List Website :=
  match resp.files with
  | some l => l
  | none => []

/-- A token far from expiry at time 0, for concrete instantiations. -/
def sampleToken : TokenData :=
  { accessToken := "tok", refreshToken := "tok", expiresAt := 1000000000,
    scopes := scopesList, userId := "u", clientId := "cid" }

/-- A token whose expiry is within the 5-minute margin at time 0. -/
def nearExpiryToken : TokenData :=
  { accessToken := "tok", refreshToken := "tok", expiresAt := 200000,
    scopes := scopesList, userId := "u", clientId := "cid" }

/-- Concrete file system for the deploy counterexample: the working tree
contains a directory named `dist`. -/
def distFs : String → Option PathStat := fun p =>
  if p = "dist" then some { isFile := false, isDirectory := true, size := 4096 }
  else none

/-- Concrete file system containing a directory named `my-site`. -/
def siteFs : String → Option PathStat := fun p =>
  if p = "my-site" then some { isFile := false, isDirectory := true, size := 4096 }
  else none

/-! Theorems. -/

theorem string_toList_append (a b : String) :
    (a ++ b).toList = a.toList ++ b.toList := rfl

theorem isTokenExpired_false_iff (td : TokenData) (now : Int) :
    isTokenExpired now td = false ↔ 5 * 60 * 1000 < td.expiresAt - now := by
  simp [isTokenExpired]
  omega

/-- C1: for a loaded credential record, `ensureAuthenticated` returns the
cached access token without invoking `authorize()` exactly when
`expiresAt - now` strictly exceeds 5 minutes (300 000 ms); whenever the
margin is at most 5 minutes, or no record exists, it triggers the login
flow instead. -/
theorem ensureAuthenticated_cached_iff_margin (td : TokenData) (now : Int) :
    (ensureAuthenticated (some td) now
        = EnsureOutcome.cached td.accessToken (renewWarning now td)
      ↔ 5 * 60 * 1000 < td.expiresAt - now)
    ∧ (td.expiresAt - now ≤ 5 * 60 * 1000 →
        ensureAuthenticated (some td) now = EnsureOutcome.login)
    ∧ ensureAuthenticated none now = EnsureOutcome.login := by
  refine ⟨⟨?_, ?_⟩, ?_, rfl⟩
  · intro h
    by_cases hb : isTokenExpired now td
    · simp [ensureAuthenticated, hb] at h
    · exact (isTokenExpired_false_iff td now).mp (by simpa using hb)
  · intro h
    have hb := (isTokenExpired_false_iff td now).mpr h
    simp [ensureAuthenticated, hb]
  · intro h
    have hb : isTokenExpired now td = true := by
      simp [isTokenExpired]
      omega
    simp [ensureAuthenticated, hb]

theorem ensureAuthenticated_cached_iff_margin_witness :
    ensureAuthenticated (some sampleToken) 0 = EnsureOutcome.cached "tok" false
    ∧ ensureAuthenticated (some nearExpiryToken) 0 = EnsureOutcome.login
    ∧ ensureAuthenticated none 0 = EnsureOutcome.login := by
  refine ⟨?_, ?_, ?_⟩
  · have h := (ensureAuthenticated_cached_iff_margin sampleToken 0).1.mpr (by decide)
    have hw : renewWarning 0 sampleToken = false := by decide
    rw [hw] at h
    exact h
  · exact (ensureAuthenticated_cached_iff_margin nearExpiryToken 0).2.1 (by decide)
  · exact (ensureAuthenticated_cached_iff_margin sampleToken 0).2.2

/-- C6 (counterexample): `loadToken` converts both failure cases to
"absent" instead of surfacing them — an unreadable file and unparseable
content both come back as `null`, indistinguishable from a missing file,
where the claim demands `IOError` and `CorruptDataError` respectively. -/
theorem loadToken_unreadable_reported_absent_cex :
    loadOutcomeOfCode (loadToken (fun _ => none) FileState.unreadable)
      = LoadOutcome.absent
    ∧ loadSpec (fun _ => none) FileState.unreadable = LoadOutcome.ioError
    ∧ loadOutcomeOfCode (loadToken (fun _ => none) (FileState.content "not json"))
      = LoadOutcome.absent
    ∧ loadSpec (fun _ => none) (FileState.content "not json")
      = LoadOutcome.corruptData
    ∧ LoadOutcome.absent ≠ LoadOutcome.ioError
    ∧ LoadOutcome.absent ≠ LoadOutcome.corruptData := by
  refine ⟨rfl, rfl, rfl, rfl, by decide, by decide⟩

/-- C6 (amended): `loadToken` returns the record when the file exists and
parses, and returns "absent" (`none`) in every other case — missing file,
unreadable file, and unparseable content alike; no error escapes the
`try/catch`. -/
theorem loadToken_failures_become_absent (parse : String → Option TokenData) :
    loadToken parse FileState.missing = none
    ∧ loadToken parse FileState.unreadable = none
    ∧ ∀ text : String, loadToken parse (FileState.content text) = parse text := by
  refine ⟨rfl, rfl, fun text => ?_⟩
  cases hp : parse text <;> simp [loadToken, hp]

/-- C10: `listWebsites` returns the response's `files` array when present
and the empty list when the `files` field is missing; it never fails on a
returned envelope. -/
theorem listWebsites_files_or_empty (resp : ListResponse) :
    (∀ l, resp.files = some l → listWebsites resp = l)
    ∧ (resp.files = none → listWebsites resp = []) := by
  constructor
  · intro l h
    simp [listWebsites, h]
  · intro h
    simp [listWebsites, h]

theorem listWebsites_files_or_empty_witness :
    listWebsites ⟨some [⟨"w1", "site.zip", "https://h/w1", "/p", "t0", "t1"⟩], some 1⟩
      = [⟨"w1", "site.zip", "https://h/w1", "/p", "t0", "t1"⟩]
    ∧ listWebsites ⟨none, none⟩ = [] :=
  ⟨(listWebsites_files_or_empty _).1 _ rfl, (listWebsites_files_or_empty _).2 rfl⟩

theorem handleCallback_closes (clientId expectedState : String) (now : Int)
    (req : CallbackRequest) :
    (handleCallback clientId expectedState now req).serverClosed = true := by
  unfold handleCallback
  split_ifs <;> rfl

/-- C5: every exit path of one `startLocalServer` run calls
`server.close()` — error callback, state mismatch, success, malformed
callback, and the timeout handler — and in the no-callback case the timer
registered with a 300 000 ms delay rejects with the login-timeout error,
never firing before 300 000 ms have elapsed. -/
theorem serverExit_closes_every_path (clientId expectedState : String) (now : Int) :
    (∀ ev : ServerEvent, (serverExit clientId expectedState now ev).serverClosed = true)
    ∧ serverExit clientId expectedState now ServerEvent.timerFired
        = { serverClosed := true,
            outcome := CallbackOutcome.rejected "登录超时（5 分钟）" }
    ∧ serverTimeoutMs = 300000
    ∧ raceTimeoutMs = 300000
    ∧ (∀ registeredAt fireTime : Nat,
        timerFiresAt registeredAt fireTime → 300000 ≤ fireTime) := by
  refine ⟨?_, rfl, rfl, rfl, ?_⟩
  · intro ev
    cases ev with
    | request req => exact handleCallback_closes clientId expectedState now req
    | timerFired => rfl
  · intro registeredAt fireTime h
    unfold timerFiresAt serverTimeoutMs at h
    omega

theorem serverExit_closes_every_path_witness :
    (serverExit "cid" "st" 0 (ServerEvent.request
        { access_token := none, refresh_token := none, user_id := none,
          state := none, error := none })).serverClosed = true
    ∧ 300000 ≤ 300123 :=
  ⟨(serverExit_closes_every_path "cid" "st" 0).1 _,
    (serverExit_closes_every_path "cid" "st" 0).2.2.2.2 0 300123 (by decide)⟩

/-- C2 (counterexample): a callback that carries `access_token` and a
state different from the generated one, but also an `error` parameter, is
handled by the `error` branch first: it fails with the authorization
error, not the state-mismatch error. -/
theorem handleCallback_error_param_beats_mismatch_cex :
    (⟨some "tok", none, none, some "attacker", some "denied"⟩ :
        CallbackRequest).access_token = some "tok"
    ∧ (⟨some "tok", none, none, some "attacker", some "denied"⟩ :
        CallbackRequest).state = some "attacker"
    ∧ some "attacker" ≠ some "expstate1234"
    ∧ (handleCallback "cid" "expstate1234" 0
        ⟨some "tok", none, none, some "attacker", some "denied"⟩).outcome
      = CallbackOutcome.rejected "OAuth 授权失败: denied"
    ∧ CallbackOutcome.rejected "OAuth 授权失败: denied"
      ≠ CallbackOutcome.rejected "OAuth state 不匹配，可能存在安全风险"
    ∧ persistedAfter (handleCallback "cid" "expstate1234" 0
        ⟨some "tok", none, none, some "attacker", some "denied"⟩) = none := by
  refine ⟨rfl, rfl, by decide, by decide, by decide, by decide⟩

/-- C2 (amended): for every callback carrying a non-empty `access_token`,
a non-empty `state` different from the generated state, and no (non-empty)
`error` parameter, the handler fails with the state-mismatch rejection,
persists nothing, and renders a fixed `400` page whose body is the
constant `State 不匹配` — independent of the expected and received state
values, so neither leaks. -/
theorem handleCallback_state_mismatch_rejects (clientId expectedState : String)
    (now : Int) (req : CallbackRequest) :
    truthy req.error = false →
    truthy req.access_token = true →
    truthy req.state = true →
    req.state ≠ some expectedState →
    handleCallback clientId expectedState now req
      = { status := 400, body := "State 不匹配", serverClosed := true,
          outcome := CallbackOutcome.rejected "OAuth state 不匹配，可能存在安全风险" }
    ∧ persistedAfter (handleCallback clientId expectedState now req) = none := by
  intro h1 h2 h3 h4
  have heq : handleCallback clientId expectedState now req
      = { status := 400, body := "State 不匹配", serverClosed := true,
          outcome := CallbackOutcome.rejected "OAuth state 不匹配，可能存在安全风险" } := by
    unfold handleCallback
    rw [h1]
    simp only [Bool.false_eq_true, if_false, h2, h3, Bool.and_self, if_true]
    rw [if_pos h4]
  exact ⟨heq, by rw [heq]; rfl⟩

theorem handleCallback_state_mismatch_rejects_witness :
    handleCallback "cid" "expstate1234" 0 ⟨some "tok", none, none, some "zzz", none⟩
      = { status := 400, body := "State 不匹配", serverClosed := true,
          outcome := CallbackOutcome.rejected "OAuth state 不匹配，可能存在安全风险" }
    ∧ persistedAfter (handleCallback "cid" "expstate1234" 0
        ⟨some "tok", none, none, some "zzz", none⟩) = none :=
  handleCallback_state_mismatch_rejects "cid" "expstate1234" 0
    ⟨some "tok", none, none, some "zzz", none⟩
    (by decide) (by decide) (by decide) (by decide)

/-- C7 (counterexample): on a successful callback whose `refresh_token`
parameter is present but empty, the synthesized record's `refreshToken` is
the access token, not the callback's `refresh_token` value — the `||`
fallback also triggers on the empty string, not only on absence. -/
theorem handleCallback_empty_refresh_falls_back_cex :
    (⟨some "tok", some "", none, some "st1234", none⟩ :
        CallbackRequest).refresh_token = some ""
    ∧ (persistedAfter (handleCallback "cid" "st1234" 0
        ⟨some "tok", some "", none, some "st1234", none⟩)).map TokenData.refreshToken
      = some "tok"
    ∧ ("tok" : String) ≠ "" := by
  refine ⟨rfl, by decide, by decide⟩

/-- C7 (amended): on every successful callback (non-empty access token,
matching non-empty state, no error), the synthesized record has: the
callback's access token; the callback's refresh token when present and
non-empty, else the access token; expiry `now + 30` days; the fixed full
scope set; the callback's user id or the empty string; the configured
client id. -/
theorem handleCallback_success_record_fields (clientId expectedState tok : String)
    (rt uid : Option String) (now : Int) :
    expectedState ≠ "" → tok ≠ "" →
    handleCallback clientId expectedState now
        ⟨some tok, rt, uid, some expectedState, none⟩
      = { status := 200, body := successPageHtml, serverClosed := true,
          outcome := CallbackOutcome.resolved {
            accessToken := tok
            refreshToken := (match rt with
              | some r => if r = "" then tok else r
              | none => tok)
            expiresAt := now + 30 * 24 * 60 * 60 * 1000
            scopes := scopesList
            userId := (match uid with
              | some u => u
              | none => "")
            clientId := clientId } } := by
  intro hst htok
  unfold handleCallback
  have h1 : truthy (none : Option String) = false := rfl
  have h2 : truthy (some tok) = true := by simp [truthy, htok]
  have h3 : truthy (some expectedState) = true := by simp [truthy, hst]
  rw [h1]
  simp only [Bool.false_eq_true, if_false, h2, h3, Bool.and_self, if_true]
  rw [if_neg (by simp : ¬ (some expectedState ≠ some expectedState))]
  rcases rt with _ | r
  · rcases uid with _ | u
    · simp [truthy]
    · by_cases hu : u = "" <;> simp [truthy, hu]
  · rcases uid with _ | u
    · by_cases hr : r = "" <;> simp [truthy, hr]
    · by_cases hr : r = "" <;> by_cases hu : u = "" <;> simp [truthy, hr, hu]

theorem handleCallback_success_record_fields_witness :
    handleCallback "cid" "expstate1234" 0
        ⟨some "tok", some "refr", none, some "expstate1234", none⟩
      = { status := 200, body := successPageHtml, serverClosed := true,
          outcome := CallbackOutcome.resolved {
            accessToken := "tok", refreshToken := "refr",
            expiresAt := 2592000000, scopes := scopesList,
            userId := "", clientId := "cid" } } := by
  have h := handleCallback_success_record_fields "cid" "expstate1234" "tok"
    (some "refr") none 0 (by decide) (by decide)
  simpa using h

theorem containsStr_middle (pre mid suf : String) :
    containsStr (pre ++ mid ++ suf) mid = true := by
  unfold containsStr
  apply decide_eq_true
  exact ⟨pre.toList, suf.toList, rfl⟩

/-- C3: on a tool call entered with a valid cached credential, an
operation that first fails with an auth-marker error and succeeds when
retried makes the handler return the retry's success value with
`authorize()` invoked exactly once; an operation failing with a non-auth
error is surfaced as the plain error response with `authorize()` never
invoked. -/
theorem callToolHandler_auth_retry_once {α : Type} (td : TokenData) (now : Int)
    (loginFlow : Except String String) (msg newTok : String) (v : α) :
    5 * 60 * 1000 < td.expiresAt - now →
    (isAuthErrorMessage msg = true →
      callToolHandler (some td) now loginFlow (Except.error msg)
          (Except.ok newTok) (Except.ok v)
        = (ToolOutcome.success v, 1))
    ∧ (isAuthErrorMessage msg = false →
      ∀ (retryLoginFlow : Except String String) (opRetry : Except String α),
        callToolHandler (some td) now loginFlow (Except.error msg)
            retryLoginFlow opRetry
          = (ToolOutcome.errorResult (plainErrorText msg), 0)) := by
  intro hfresh
  have hexp : isTokenExpired now td = false := (isTokenExpired_false_iff td now).mpr hfresh
  constructor
  · intro hauth
    simp [callToolHandler, ensureAuthenticated, hexp, catchBranch, hauth]
  · intro hnon retryLoginFlow opRetry
    simp [callToolHandler, ensureAuthenticated, hexp, catchBranch, hnon]

theorem callToolHandler_auth_retry_once_witness :
    callToolHandler (some sampleToken) 0 (Except.ok "t1")
        (Except.error "HTTP 401: unauthorized") (Except.ok "t2")
        (Except.ok (42 : Nat))
      = (ToolOutcome.success 42, 1)
    ∧ callToolHandler (some sampleToken) 0 (Except.ok "t1")
        (Except.error "remote deploy failed") (Except.ok "t2")
        (Except.ok (7 : Nat))
      = (ToolOutcome.errorResult (plainErrorText "remote deploy failed"), 0) :=
  ⟨(callToolHandler_auth_retry_once sampleToken 0 (Except.ok "t1")
        "HTTP 401: unauthorized" "t2" 42 (by decide)).1 (by decide),
    (callToolHandler_auth_retry_once sampleToken 0 (Except.ok "t1")
        "remote deploy failed" "t2" 7 (by decide)).2 (by decide)
      (Except.ok "t2") (Except.ok 7)⟩

/-- C4 (counterexample): when the first attempt fails with an auth-marker
error and the retry also fails, the retry's failure does not propagate
unchanged — the handler returns the auto-login-failure report, a different
and partly generic text, in place of the retry's own error. -/
theorem callToolHandler_retry_failure_wrapped_cex :
    callToolHandler (some sampleToken) 0 (Except.ok "t1")
        (Except.error "HTTP 401: unauthorized") (Except.ok "t2")
        (Except.error "remote deploy failed" : Except String Nat)
      = (ToolOutcome.errorResult (autoLoginFailedText "remote deploy failed"), 1)
    ∧ autoLoginFailedText "remote deploy failed" ≠ "remote deploy failed"
    ∧ autoLoginFailedText "remote deploy failed"
      ≠ plainErrorText "remote deploy failed" := by
  refine ⟨by decide, by decide, by decide⟩

/-- C4 (amended): when the first attempt fails with an auth-marker error,
the re-login succeeds and the retry fails, the handler returns the
auto-login-failure report built from the retry's error: the original
message is preserved verbatim inside the report (together with the manual
login instruction), but the response text is not the retry's error
unchanged. -/
theorem callToolHandler_retry_failure_reported {α : Type} (td : TokenData)
    (now : Int) (loginFlow : Except String String) (msg newTok retryErr : String) :
    5 * 60 * 1000 < td.expiresAt - now →
    isAuthErrorMessage msg = true →
    callToolHandler (some td) now loginFlow (Except.error msg) (Except.ok newTok)
        (Except.error retryErr : Except String α)
      = (ToolOutcome.errorResult (autoLoginFailedText retryErr), 1)
    ∧ containsStr (autoLoginFailedText retryErr) retryErr = true := by
  intro hfresh hauth
  have hexp : isTokenExpired now td = false := (isTokenExpired_false_iff td now).mpr hfresh
  constructor
  · simp [callToolHandler, ensureAuthenticated, hexp, catchBranch, hauth]
  · exact containsStr_middle autoLoginFailedPre retryErr autoLoginFailedSuf

theorem callToolHandler_retry_failure_reported_witness :
    callToolHandler (some sampleToken) 0 (Except.ok "t1")
        (Except.error "UNAUTHORIZED") (Except.ok "t2")
        (Except.error "disk full" : Except String Nat)
      = (ToolOutcome.errorResult (autoLoginFailedText "disk full"), 1)
    ∧ containsStr (autoLoginFailedText "disk full") "disk full" = true :=
  callToolHandler_retry_failure_reported sampleToken 0 (Except.ok "t1")
    "UNAUTHORIZED" "t2" "disk full" (by decide) (by decide)

/-- C8: `deployWebsite` misclassifies an existing local directory whose
relative name round-trips through base64 (such as `dist`): the
decode-and-compare sniff runs before the filesystem is consulted, so the
directory is rejected with the inline-content error instead of being
archived into a temp ZIP; a directory whose name is not base64-shaped
(such as `my-site`) reaches the archive branch. -/
theorem deployWebsiteResolve_dist_directory_rejected :
    isBase64 "dist" = true
    ∧ distFs "dist" = some { isFile := false, isDirectory := true, size := 4096 }
    ∧ deployWebsiteResolve distFs "dist"
        = ResolveResult.error "不支持直接传入 Base64 内容，请提供 ZIP 文件路径或 URL"
    ∧ deployWebsiteResolve siteFs "my-site" = ResolveResult.tempZipFromDir "my-site" := by
  refine ⟨by decide, by decide, by decide, by decide⟩

/-- C9 (counterexample): the generated state is not always at least 20
characters — the draw `0.5` (the dyadic `2 ^ 52 / 2 ^ 53`) prints as
`0.i` in base 36, so two such draws give the 2-character state `ii`. -/
theorem generateRandomState_too_short_cex :
    generateRandomState 4503599627370496 4503599627370496 = "ii"
    ∧ (generateRandomState 4503599627370496 4503599627370496).length < 20
    ∧ 4503599627370496 < two53 := by
  refine ⟨by decide, by decide, by decide⟩

theorem isBase36Alnum_b36Digit (n : Nat) : isBase36Alnum (b36Digit n) = true := by
  have h36 : ∀ m, m < 36 → isBase36Alnum (b36Digit m) = true := by decide
  have e : n % 36 % 36 = n % 36 := by omega
  have hsame : b36Digit (n % 36) = b36Digit n := by
    unfold b36Digit
    rw [e]
  rw [← hsame]
  exact h36 (n % 36) (by omega)

theorem base36FracDigits_alnum :
    ∀ (fuel k : Nat) (c : Char), c ∈ base36FracDigits k fuel →
      isBase36Alnum c = true := by
  intro fuel
  induction fuel with
  | zero =>
    intro k c h
    simp [base36FracDigits] at h
  | succ n ih =>
    intro k c h
    rw [base36FracDigits] at h
    by_cases hk : (k == 0) = true
    · rw [if_pos hk] at h
      simp at h
    · rw [if_neg hk] at h
      rcases List.mem_cons.mp h with h1 | h2
      · rw [h1]
        exact isBase36Alnum_b36Digit _
      · exact ih _ _ h2

theorem jsSubstring_chars_alnum (k : Nat) (c : Char)
    (h : c ∈ (jsSubstring (jsNumberToString36 k) 2 15).toList) :
    isBase36Alnum c = true := by
  have h1 : c ∈ (jsNumberToString36 k).toList.drop 2 :=
    List.mem_of_mem_take h
  unfold jsNumberToString36 at h1
  by_cases hk : (k == 0) = true
  · rw [if_pos hk] at h1
    simp at h1
  · rw [if_neg hk] at h1
    have h2 : c ∈ base36FracDigits k 60 := by simpa using h1
    exact base36FracDigits_alnum 60 k c h2

theorem jsSubstring_length_le (s : String) : (jsSubstring s 2 15).length ≤ 13 := by
  show (String.mk ((s.toList.drop 2).take (15 - 2))).length ≤ 13
  rw [String.length_mk, List.length_take]
  omega

/-- C9 (amended): every character of the generated state token is a
lowercase base-36 alphanumeric, and the token has at most 26 characters
(13 from each draw); a minimum length of 20 is not guaranteed for all
random draws. -/
theorem generateRandomState_alnum_le26 (k1 k2 : Nat) :
    (generateRandomState k1 k2).length ≤ 26
    ∧ (generateRandomState k1 k2).toList.all isBase36Alnum = true := by
  constructor
  · show (jsSubstring (jsNumberToString36 k1) 2 15
        ++ jsSubstring (jsNumberToString36 k2) 2 15).length ≤ 26
    rw [String.length_append]
    have h1 := jsSubstring_length_le (jsNumberToString36 k1)
    have h2 := jsSubstring_length_le (jsNumberToString36 k2)
    omega
  · rw [List.all_eq_true]
    intro c hc
    have hc2 : c ∈ (jsSubstring (jsNumberToString36 k1) 2 15).toList
        ++ (jsSubstring (jsNumberToString36 k2) 2 15).toList := by
      rw [← string_toList_append]
      exact hc
    rcases List.mem_append.mp hc2 with h | h
    · exact jsSubstring_chars_alnum k1 c h
    · exact jsSubstring_chars_alnum k2 c h

end DemoxMCP
